import Mathlib

/-
Shallow embedding of the HEAL-EYE workflow orchestrator
(src/agent.ts) and its error/retry utility module and HTTP boundary
(src/app/api/langbase.ts).  External effects (provider calls, memory
retrieval, the wall clock) are modelled as oracle fields of an
environment record; everything else is translated directly from the
TypeScript source.
-/

namespace HealEye

/- §1  JavaScript string / truthiness helpers -/

/-- Does the first character list start with the second one? -/
def listStartsWith : List Char → List Char → Bool
  | _, [] => true
  | [], _ :: _ => false
  | a :: as, b :: bs => (a == b) && listStartsWith as bs

/-- Substring containment on character lists. -/
def listContainsSub : List Char → List Char → Bool
  | [], needle => needle.isEmpty
  | a :: rest, needle => listStartsWith (a :: rest) needle || listContainsSub rest needle

/-- Lower-cased character list of a string. -/
def lowerChars (s : String) : List Char := s.toList.map Char.toLower

/-- Case-insensitive substring test: the semantics of a JS
`/.../i.test(hay)` regex whose pattern is a literal phrase. -/
def strIncludesCI (hay needle : String) : Bool :=
  listContainsSub (lowerChars hay) (lowerChars needle)

/-- JS truthiness of a possibly-null/undefined string: null, undefined
and the empty string are falsy. -/
def jsTruthyStr : Option String → Bool
  | none => false
  | some s => !(s == "")

/-- JS `a || b` where a is a possibly-absent string and b a default. -/
def strOrDefault (a : Option String) (b : String) : String :=
  match a with
  | none => b
  | some s => if s = "" then b else s

instance {e a : Type} [DecidableEq e] [DecidableEq a] : DecidableEq (Except e a) := fun x y =>
  match x, y with
  | .error u, .error v =>
    if h : u = v then .isTrue (by rw [h]) else .isFalse (fun hh => h (Except.error.inj hh))
  | .ok u, .ok v =>
    if h : u = v then .isTrue (by rw [h]) else .isFalse (fun hh => h (Except.ok.inj hh))
  | .error _, .ok _ => .isFalse Except.noConfusion
  | .ok _, .error _ => .isFalse Except.noConfusion

/- §2  Error taxonomy and envelopes (src/app/api/langbase.ts, the
"Centralized error handling utilities" section) -/

/-- A parsed JSON response body from the upstream fetch in
handleAgentRequest: an optional `message` field plus an opaque rest. -/
structure FetchBody where
  message : Option String
  payload : String
deriving DecidableEq

/-- The `details` payloads that the repository attaches to its errors.
`stepDetails` is the shape used by WorkflowStepError
(`{ step, original }`); the other constructors are the detail objects
built in src/app/api/langbase.ts. -/
inductive Details where
  | stepDetails (step : Option String) (original : Option String)
  | providedType (t : String)
  | expectedKey
  | rejectedKey (original : Option FetchBody)
  | bodyDetails (b : FetchBody)
  | statusOnly (status : Nat)
deriving DecidableEq

/-- The `details?.step` access: only the WorkflowStepError detail shape
carries a step field. -/
def Details.stepField : Details → Option String
  | .stepDetails s _ => s
  | _ => none

/-- Serialized error shape (interface ErrorJSON). Absent JSON keys /
undefined values are `none`. -/
structure ErrorJSON where
  code : String
  message : String
  details : Option Details
  retryable : Option Bool
  docs : Option String
  step : Option String
deriving DecidableEq

/-- State of a constructed BaseAppError (or subclass) instance.
`isWorkflowStep` models the dynamic dispatch of the overridden
`toJSON` in the WorkflowStepError subclass. -/
structure AppError where
  code : String
  message : String
  httpStatus : Nat
  details : Option Details
  retryable : Option Bool
  docs : Option String
  isWorkflowStep : Bool
deriving DecidableEq

/-- `new BaseAppError(code, message, httpStatus, options)`. -/
def BaseAppError (code message : String) (httpStatus : Nat)
    (details : Option Details) (retryable : Option Bool) (docs : Option String) : AppError :=
  ⟨code, message, httpStatus, details, retryable, docs, false⟩

/-- `new ValidationError(message, details)`. -/
def ValidationError (message : String) (details : Option Details) : AppError :=
  BaseAppError "VALIDATION_ERROR" message 400 details none none

/-- `new AuthError(message, details)`. -/
def AuthError (message : String) (details : Option Details) : AppError :=
  BaseAppError "AUTH_ERROR" message 401 details none none

/-- `new ExternalServiceError(message, httpStatus, details, retryable)`;
the source defaults retryable to true, callers here pass it explicitly. -/
def ExternalServiceError (message : String) (httpStatus : Nat)
    (details : Option Details) (retryable : Bool) : AppError :=
  BaseAppError "EXTERNAL_SERVICE_ERROR" message httpStatus details (some retryable) none

/-- `new WorkflowStepError(step, message, details, retryable)`.  Note the
first constructor argument is discarded by the source: only
`details?.step` reaches the serialized form. -/
def WorkflowStepError (stepArg message : String) (details : Option Details)
    (retryable : Bool) : AppError :=
  ⟨"WORKFLOW_STEP_ERROR", message, 500, details, some retryable, none, true⟩

/-- The `details?.step || undefined` expression of
WorkflowStepError.toJSON: JS `||` drops the empty string as falsy. -/
def jsTruthyStep : Option Details → Option String
  | none => none
  | some d =>
    match d.stepField with
    | none => none
    | some s => if s = "" then none else some s

/-- `toJSON` of BaseAppError, with the WorkflowStepError override adding
the `step` key. -/
def AppError.toJSON (e : AppError) : ErrorJSON :=
  if e.isWorkflowStep then
    ⟨e.code, e.message, e.details, e.retryable, e.docs, jsTruthyStep e.details⟩
  else
    ⟨e.code, e.message, e.details, e.retryable, e.docs, none⟩

/-- A thrown JavaScript value as discriminated by errorEnvelope:
a BaseAppError instance, some other Error (only its message is
observed), or a non-Error value. -/
inductive Thrown where
  | appError (e : AppError)
  | jsError (message : String)
  | otherValue
deriving DecidableEq

/-- The `error` field that errorEnvelope attaches for a thrown value. -/
def errJson : Thrown → ErrorJSON
  | .appError e => e.toJSON
  | .jsError m => ⟨"UNEXPECTED_ERROR", m, none, none, none, none⟩
  | .otherValue => ⟨"UNKNOWN", "Unknown error", none, none, none, none⟩

/-- The meta object of an envelope: the workflow passes `{ steps }`,
other callers pass `{}` (no steps key). -/
structure MetaObj (Step : Type) where
  steps : Option (List Step)
deriving DecidableEq

/-- A result envelope `{success, data?, meta?, error?}`; absent keys are
`none`. -/
structure Envelope (Step D : Type) where
  success : Bool
  data : Option D
  meta : Option (MetaObj Step)
  error : Option ErrorJSON
deriving DecidableEq

/-- `successEnvelope(data, meta)`. -/
def successEnvelope {Step D : Type} (data : D) (meta : MetaObj Step) : Envelope Step D :=
  ⟨true, some data, some meta, none⟩

/-- `errorEnvelope(err)`. -/
def errorEnvelope {Step D : Type} (t : Thrown) : Envelope Step D :=
  ⟨false, none, none, some (errJson t)⟩

/-- A thrown provider/step failure carries at most a message
(`(e as any)?.message`); `none` models a thrown value without one. -/
def thrownOfSite : Option String → Thrown
  | some m => .jsError m
  | none => .otherValue

/-- `isOverloadedError(message)`: false on undefined or empty message,
otherwise the case-insensitive transient-overload pattern test. -/
def isOverloadedError : Option String → Bool
  | none => false
  | some m =>
    if m = "" then false
    else
      strIncludesCI m "model is overloaded" || strIncludesCI m "rate limit" ||
      strIncludesCI m "temporarily unavailable" || strIncludesCI m "please try again later"

/-- Observable trace of one withRetries run: the final result, the list
of backoff waits performed (in ms, in order), and how many times the
wrapped operation was invoked. -/
structure RetryTrace (T : Type) where
  result : Except (Option String) T
  waits : List Nat
  attempts : Nat

/-- The retry loop of `withRetries`, with the operation indexed by the
0-based attempt counter and errors represented by their message.  The
fuel-zero fallback mirrors the source's unreachable `throw lastErr`
(lastErr is never assigned, so it would throw undefined). -/
def withRetriesGo {T : Type} (fn : Nat → Except (Option String) T)
    (retries delayMs factor : Nat) : Nat → Nat → RetryTrace T
  | _, 0 => ⟨.error none, [], 0⟩
  | attempt, fuel + 1 =>
    match fn attempt with
    | .ok v => ⟨.ok v, [], 1⟩
    | .error e =>
      if attempt = retries ∨ isOverloadedError e = false then ⟨.error e, [], 1⟩
      else
        let w := delayMs * factor ^ attempt
        let rest := withRetriesGo fn retries delayMs factor (attempt + 1) fuel
        ⟨rest.result, w :: rest.waits, rest.attempts + 1⟩

/-- `withRetries(fn, {retries, delayMs, factor})`.  The loop runs while
`attempt <= retries`, so `retries + 1` iterations suffice. -/
def withRetries {T : Type} (fn : Nat → Except (Option String) T)
    (retries delayMs factor : Nat) : RetryTrace T :=
  withRetriesGo fn retries delayMs factor 0 (retries + 1)

/-- `withRetries(fn)` with the default options retries=3, delayMs=500,
factor=2. -/
def withRetriesDefault {T : Type} (fn : Nat → Except (Option String) T) : RetryTrace T :=
  withRetries fn 3 500 2

/- §3  The workflow orchestrator (src/agent.ts) -/

/-- One requested tool invocation in a provider response
(`{id, function: {name, arguments}}`). -/
structure ToolCall where
  id : String
  name : String
  args : String
deriving DecidableEq

/-- `response.choices[0].message`: optional text content plus an
optional tool_calls array. -/
structure AgentMessage where
  content : Option String
  tool_calls : Option (List ToolCall)
deriving DecidableEq

/-- A provider response as the workflow reads it: the first choice's
message and the aggregate `output` text. -/
structure AgentResponse where
  message : AgentMessage
  output : Option String
deriving DecidableEq

/-- One passage returned by `langbase.memories.retrieve` (the workflow
reads only `.text` and the array length). -/
structure MemoryChunk where
  text : String
deriving DecidableEq

/-- A tool-result turn pushed back into the conversation
(`{name, tool_call_id, role:'tool', content}`). -/
structure ToolMsg where
  name : String
  tool_call_id : String
  content : String
deriving DecidableEq

/-- Provider nondeterminism at one logical call site: the outcome of the
n-th invocation against the chosen primary model, and the outcome of
the single fallback invocation against the alternate model.  Errors are
represented by their optional message. -/
structure CallSiteOracle (R : Type) where
  primary : Nat → Except (Option String) R
  fallback : Except (Option String) R

/-- Observable trace of one call site: the final result, the model id
used for each provider invocation in order, the backoff waits, and
whether a fallback system note was pushed into the working context. -/
structure SiteResult (R : Type) where
  result : Except (Option String) R
  calls : List String
  waits : List Nat
  noteAppended : Bool

/-- The per-call-site pattern of src/agent.ts: `withRetries(() =>
run(model))`, and on a transient-overload failure a single uncounted
call against the alternate model.  `pushNote` records whether the
source at that site pushes a system note into `inputMessages` after a
successful fallback (only the two analyze_realtime_data sites do). -/
def runSiteCalls {R : Type} (o : CallSiteOracle R) (primaryM fallbackM : String)
    (pushNote : Bool) : SiteResult R :=
  let r := withRetriesDefault o.primary
  let pcalls := List.replicate r.attempts primaryM
  match r.result with
  | .ok v => ⟨.ok v, pcalls, r.waits, false⟩
  | .error e =>
    if isOverloadedError e then
      match o.fallback with
      | .ok v => ⟨.ok v, pcalls ++ [fallbackM], r.waits, pushNote⟩
      | .error e2 => ⟨.error e2, pcalls ++ [fallbackM], r.waits, false⟩
    else ⟨.error e, pcalls, r.waits, false⟩

/-- `toolCalls && toolCalls.length > 0`. -/
def hasToolCalls (m : AgentMessage) : Bool :=
  match m.tool_calls with
  | none => false
  | some l => !l.isEmpty

/-- The environment of one healEyeWorkflow invocation: process
environment variables, the wall clock, and the outcomes of every
external call.  The simulated tool bodies are kept abstract as
functions from the raw JSON argument string (their outputs embed the
clock); `analyzeSummarize` may depend on the tool-result turns fed into
that second reasoning call. -/
structure WorkflowEnv where
  langbaseApiKey : Option String
  openaiApiKey : Option String
  googleApiKey : Option String
  now : String
  retrieveResult : Except (Option String) (List MemoryChunk)
  analyzeInitial : CallSiteOracle AgentResponse
  analyzeSummarize : List ToolMsg → CallSiteOracle AgentResponse
  predictionsOracle : CallSiteOracle AgentResponse
  recommendationsOracle : CallSiteOracle AgentResponse
  alertsOracle : CallSiteOracle AgentResponse
  conversationalOracle : CallSiteOracle AgentResponse
  weatherTool : String → String
  hospitalTool : String → String
  trendsTool : String → String

/-- `process.env.OPENAI_API_KEY && !process.env.OPENAI_API_KEY.startsWith('AIzaSy')`. -/
def hasOpenAIKey (env : WorkflowEnv) : Bool :=
  match env.openaiApiKey with
  | none => false
  | some k => !(k == "") && !(listStartsWith k.toList "AIzaSy".toList)

/-- The model chosen at every step of src/agent.ts. -/
def primaryModel (env : WorkflowEnv) : String :=
  if hasOpenAIKey env then "openai:gpt-5-mini-2025-08-07" else "google:gemini-2.5-flash"

/-- The alternate model used for the one-shot overload fallback. -/
def fallbackModel (env : WorkflowEnv) : String :=
  if hasOpenAIKey env then "google:gemini-2.5-flash" else "openai:gpt-5-mini-2025-08-07"

/-- The tool-dispatch switch of analyze_realtime_data; an unknown name
yields the literal sentinel "Tool not found".  Argument JSON decoding
is folded into the abstract tool functions. -/
def dispatchToolCall (env : WorkflowEnv) (name args : String) : String :=
  if name = "fetch_weather_aqi_data" then env.weatherTool args
  else if name = "analyze_hospital_data" then env.hospitalTool args
  else if name = "analyze_health_trends" then env.trendsTool args
  else "Tool not found"

/-- The tool-result turns pushed after the initial analysis response. -/
def toolMessages (env : WorkflowEnv) (tcs : List ToolCall) : List ToolMsg :=
  tcs.map fun tc => ⟨tc.name, tc.id, dispatchToolCall env tc.name tc.args⟩

/-- The body of the analyze_realtime_data step: the initial reasoning
call (with tools and with a fallback note on overload), then either the
tool round-trip plus the summarize call, or the plain message content
with its default. -/
def analyzeRealtimeRun (env : WorkflowEnv) : Except (Option String) (Option String) :=
  match (runSiteCalls env.analyzeInitial (primaryModel env) (fallbackModel env) true).result with
  | .error e => .error e
  | .ok resp =>
    if hasToolCalls resp.message then
      let msgs := toolMessages env (resp.message.tool_calls.getD [])
      match (runSiteCalls (env.analyzeSummarize msgs) (primaryModel env) (fallbackModel env) true).result with
      | .error e => .error e
      | .ok fr => .ok fr.output
    else
      .ok (some (strOrDefault resp.message.content "No data analysis performed"))

/-- The generate_predictions reasoning call site (no fallback note in
the source). -/
def generatePredictionsRun (env : WorkflowEnv) : SiteResult AgentResponse :=
  runSiteCalls env.predictionsOracle (primaryModel env) (fallbackModel env) false

/-- The generate_recommendations reasoning call site (no fallback note). -/
def generateRecommendationsRun (env : WorkflowEnv) : SiteResult AgentResponse :=
  runSiteCalls env.recommendationsOracle (primaryModel env) (fallbackModel env) false

/-- The generate_public_alerts reasoning call site (no fallback note). -/
def generatePublicAlertsRun (env : WorkflowEnv) : SiteResult AgentResponse :=
  runSiteCalls env.alertsOracle (primaryModel env) (fallbackModel env) false

/-- The generate_conversational_response reasoning call site (no
fallback note). -/
def generateConversationalRun (env : WorkflowEnv) : SiteResult AgentResponse :=
  runSiteCalls env.conversationalOracle (primaryModel env) (fallbackModel env) false

/-- One entry of the stepMeta bookkeeping array. -/
structure StepResult where
  id : String
  status : String
  output : Option Nat
  error : Option ErrorJSON
deriving DecidableEq

/-- The data object of the final success envelope. -/
structure WorkflowData where
  conversational_response : Option String
  data_analysis : Option String
  predictions : Option String
  recommendations : Option String
  public_alerts : Option String
  timestamp : String
  confidence_level : String
  system_status : String
deriving DecidableEq

/-- Everything observable about one healEyeWorkflow invocation: the
returned envelope (or, via `.error`, a value thrown out of the
function), the stepMeta array, the ids of the steps whose thunks began
executing, whether the provider workflow session was created, and
whether `workflow.end()` ran. -/
structure WorkflowRun where
  outcome : Except (Option String) (Envelope StepResult WorkflowData)
  stepMeta : List StepResult
  executedSteps : List String
  sessionCreated : Bool
  workflowEnded : Bool

/-- `mergeEnvelope` flattens nested envelopes only when the data object
itself carries a `success` discriminator; the workflow's data object
has none, so the guard `envelope.data.success !== undefined` is false
and the envelope is returned unchanged. -/
def mergeEnvelope (e : Envelope StepResult WorkflowData) : Envelope StepResult WorkflowData := e

/-- Step 6 (generate_conversational_response) and the final envelope;
a failure of the ungated conversational call escapes to the outer catch. -/
def runStep6 (env : WorkflowEnv) (meta : List StepResult) (exec : List String)
    (dataAnalysis prediction recommendations publicAlerts : Option String) : WorkflowRun :=
  match (generateConversationalRun env).result with
  | .error e =>
    ⟨.ok (errorEnvelope (thrownOfSite e)), meta,
      exec ++ ["generate_conversational_response"], true, true⟩
  | .ok r =>
    ⟨.ok (mergeEnvelope (successEnvelope
        ⟨r.output, dataAnalysis, prediction, recommendations, publicAlerts,
          env.now, "High", "Active"⟩
        ⟨some (meta ++ [⟨"generate_conversational_response", "ok", none, none⟩])⟩)),
      meta ++ [⟨"generate_conversational_response", "ok", none, none⟩],
      exec ++ ["generate_conversational_response"], true, true⟩

/-- Step 5 (generate_public_alerts), gated on the recommendations
output being truthy; a failure of the gated call escapes uncaught. -/
def runStep5 (env : WorkflowEnv) (meta : List StepResult) (exec : List String)
    (dataAnalysis prediction recommendations : Option String) : WorkflowRun :=
  if jsTruthyStr recommendations then
    match (generatePublicAlertsRun env).result with
    | .error e =>
      ⟨.ok (errorEnvelope (thrownOfSite e)), meta,
        exec ++ ["generate_public_alerts"], true, true⟩
    | .ok r =>
      runStep6 env (meta ++ [⟨"generate_public_alerts", "ok", none, none⟩])
        (exec ++ ["generate_public_alerts"])
        dataAnalysis prediction recommendations r.output
  else
    runStep6 env
      (meta ++ [⟨"generate_public_alerts", "skipped", none,
        some ⟨"DEPENDENCY_FAILED", "Skipped due to recommendations error", none, none, none, none⟩⟩])
      exec dataAnalysis prediction recommendations none

/-- Step 4 (generate_recommendations), gated on the prediction output. -/
def runStep4 (env : WorkflowEnv) (meta : List StepResult) (exec : List String)
    (dataAnalysis prediction : Option String) : WorkflowRun :=
  if jsTruthyStr prediction then
    match (generateRecommendationsRun env).result with
    | .error e =>
      ⟨.ok (errorEnvelope (thrownOfSite e)), meta,
        exec ++ ["generate_recommendations"], true, true⟩
    | .ok r =>
      runStep5 env (meta ++ [⟨"generate_recommendations", "ok", none, none⟩])
        (exec ++ ["generate_recommendations"])
        dataAnalysis prediction r.output
  else
    runStep5 env
      (meta ++ [⟨"generate_recommendations", "skipped", none,
        some ⟨"DEPENDENCY_FAILED", "Skipped due to prediction error", none, none, none, none⟩⟩])
      exec dataAnalysis prediction none

/-- Step 3 (generate_predictions), gated on the data-analysis output. -/
def runStep3 (env : WorkflowEnv) (meta : List StepResult) (exec : List String)
    (dataAnalysis : Option String) : WorkflowRun :=
  if jsTruthyStr dataAnalysis then
    match (generatePredictionsRun env).result with
    | .error e =>
      ⟨.ok (errorEnvelope (thrownOfSite e)), meta,
        exec ++ ["generate_predictions"], true, true⟩
    | .ok r =>
      runStep4 env (meta ++ [⟨"generate_predictions", "ok", none, none⟩])
        (exec ++ ["generate_predictions"])
        dataAnalysis r.output
  else
    runStep4 env
      (meta ++ [⟨"generate_predictions", "skipped", none,
        some ⟨"DEPENDENCY_FAILED", "Skipped due to dataAnalysis error", none, none, none, none⟩⟩])
      exec dataAnalysis none

/-- Step 2 (analyze_realtime_data): its failure is recorded and then
deliberately swallowed (degraded mode), never re-raised. -/
def runStep2 (env : WorkflowEnv) (meta : List StepResult) (exec : List String) : WorkflowRun :=
  match analyzeRealtimeRun env with
  | .ok da =>
    runStep3 env (meta ++ [⟨"analyze_realtime_data", "ok", none, none⟩])
      (exec ++ ["analyze_realtime_data"]) da
  | .error e =>
    runStep3 env
      (meta ++ [⟨"analyze_realtime_data", "error", none, some (errJson (thrownOfSite e))⟩])
      (exec ++ ["analyze_realtime_data"]) none

/-- healEyeWorkflow of src/agent.ts.  With no LANGBASE_API_KEY the
function throws before the workflow session is created (the guard sits
above the try/finally), so nothing is recorded and nothing is
finalized.  A context-collection failure is wrapped as a
WorkflowStepError and caught by the outer catch; every other path runs
to an envelope.  `workflow.end()` runs in the finally block on every
path that created the session. -/
def healEyeWorkflow (env : WorkflowEnv) (input : String) : WorkflowRun :=
  match env.langbaseApiKey with
  | none =>
    ⟨.error (some "LANGBASE_API_KEY missing. Set it in .env and restart the process."),
      [], [], false, false⟩
  | some _ =>
    match env.retrieveResult with
    | .error e =>
      let meta1 : List StepResult :=
        [⟨"collect_context_data", "error", none, some (errJson (thrownOfSite e))⟩]
      let wse := WorkflowStepError "collect_context_data" "Failed to retrieve context data"
        (some (.stepDetails (some "collect_context_data") e)) false
      ⟨.ok (errorEnvelope (.appError wse)), meta1, ["collect_context_data"], true, true⟩
    | .ok contextData =>
      runStep2 env [⟨"collect_context_data", "ok", some contextData.length, none⟩]
        ["collect_context_data"]

/-- The envelope's success flag of a finished run, `none` when the
invocation threw. -/
def runSuccess (w : WorkflowRun) : Option Bool :=
  match w.outcome with
  | .ok E => some E.success
  | .error _ => none

/-- The error code of a returned envelope, when present. -/
def runErrorCode (w : WorkflowRun) : Option String :=
  match w.outcome with
  | .ok E => E.error.map ErrorJSON.code
  | .error _ => none

/-- The step identifier carried by a returned error envelope. -/
def runErrorStep (w : WorkflowRun) : Option String :=
  match w.outcome with
  | .ok E => E.error.bind ErrorJSON.step
  | .error _ => none

/-- The conversational_response field of a returned success envelope. -/
def runConvResponse (w : WorkflowRun) : Option String :=
  match w.outcome with
  | .ok E => E.data.bind WorkflowData.conversational_response
  | .error _ => none

/-- The data object of a returned envelope. -/
def runData (w : WorkflowRun) : Option WorkflowData :=
  match w.outcome with
  | .ok E => E.data
  | .error _ => none

/- §4  The HTTP boundary (handleAgentRequest in
src/app/api/langbase.ts): the `run(request)` entry point of the spec,
which validates the input, checks the credential, and proxies to the
deployed agent. -/

/-- The destructured `input` of the request body: absent, a non-string
value (its `typeof` string is carried), or a string. -/
inductive ReqInput where
  | missing
  | nonString (typeofName : String)
  | str (s : String)
deriving DecidableEq

/-- The outcome of the upstream fetch: the `ok` flag, the HTTP status,
and the result of parsing the response body as JSON (an error value
models a rejected `response.json()`). -/
structure FetchResp where
  ok : Bool
  status : Nat
  jsonResult : Except (Option String) FetchBody

/-- Environment of one handleAgentRequest invocation. -/
structure ApiEnv where
  langbaseApiKey : Option String
  fetchResp : FetchResp

/-- An HTTP Response holding a serialized envelope. -/
structure HttpResponse where
  status : Nat
  body : Envelope StepResult FetchBody
deriving DecidableEq

/-- `toResponse(err)`: BaseAppError instances keep their httpStatus,
anything else becomes a 500. -/
def toResponse (t : Thrown) : HttpResponse :=
  match t with
  | .appError e => ⟨e.httpStatus, errorEnvelope t⟩
  | _ => ⟨500, errorEnvelope t⟩

/-- What handleAgentRequest did: the HTTP response it produced and how
many network calls it issued. -/
structure ApiRun where
  response : HttpResponse
  fetchCalls : Nat
deriving DecidableEq

/-- The `/Invalid User\/Org API key/i.test(errorData.message || "")`
check on a 400 response. -/
def invalidKeyMessage (b : FetchBody) : Bool :=
  strIncludesCI (strOrDefault b.message "") "invalid user/org api key"

/-- handleAgentRequest: input validation, the early credential check
(before any network call), the upstream fetch, and the translation of
its outcome into an envelope; every thrown error is caught and
serialized by toResponse. -/
def handleAgentRequest (env : ApiEnv) (input : ReqInput) : ApiRun :=
  match input with
  | .missing =>
    ⟨toResponse (.appError (ValidationError "Input is required and must be a string"
      (some (.providedType "undefined")))), 0⟩
  | .nonString t =>
    ⟨toResponse (.appError (ValidationError "Input is required and must be a string"
      (some (.providedType t)))), 0⟩
  | .str s =>
    if s = "" then
      ⟨toResponse (.appError (ValidationError "Input is required and must be a string"
        (some (.providedType "string")))), 0⟩
    else
      match env.langbaseApiKey with
      | none =>
        ⟨toResponse (.appError (AuthError "LANGBASE_API_KEY missing from environment"
          (some .expectedKey))), 0⟩
      | some _ =>
        let resp := env.fetchResp
        if resp.ok then
          match resp.jsonResult with
          | .error e => ⟨toResponse (thrownOfSite e), 1⟩
          | .ok data => ⟨⟨200, successEnvelope data ⟨none⟩⟩, 1⟩
        else
          let errorData : Option FetchBody :=
            match resp.jsonResult with
            | .ok b => some b
            | .error _ => none
          match errorData with
          | some b =>
            if resp.status = 400 ∧ invalidKeyMessage b then
              ⟨toResponse (.appError (AuthError "Langbase rejected the API key"
                (some (.rejectedKey (some b))))), 1⟩
            else
              ⟨toResponse (.appError (ExternalServiceError "Langbase request failed"
                resp.status (some (.bodyDetails b)) true)), 1⟩
          | none =>
            ⟨toResponse (.appError (ExternalServiceError "Langbase request failed"
              resp.status (some (.statusOnly resp.status)) true)), 1⟩

/- §5  Concrete environments for witnesses and counterexamples -/

/-- A provider response with plain text content and no tool calls. -/
def okResp (c : String) : AgentResponse := ⟨⟨some c, none⟩, some c⟩

/-- An oracle whose every invocation (primary and fallback) succeeds
with the given text. -/
def okOracle (c : String) : CallSiteOracle AgentResponse :=
  ⟨fun _ => .ok (okResp c), .ok (okResp c)⟩

/-- An oracle whose every invocation fails with the given message. -/
def failOracle (m : String) : CallSiteOracle AgentResponse :=
  ⟨fun _ => .error (some m), .error (some m)⟩

/-- An oracle whose primary calls always hit a transient overload and
whose fallback call succeeds. -/
def overloadedThenFallbackOk (c : String) : CallSiteOracle AgentResponse :=
  ⟨fun _ => .error (some "The model is overloaded. Please try again later."), .ok (okResp c)⟩

/-- A fully healthy environment: valid credentials, context retrieval
succeeds, every reasoning call succeeds. -/
def baseEnv : WorkflowEnv :=
  ⟨some "user_key123", some "sk-test-key", some "g-key", "2026-01-01T00:00:00.000Z",
    .ok [⟨"context passage"⟩],
    okOracle "initial analysis", fun _ => okOracle "summary",
    okOracle "prediction text", okOracle "recommendation text",
    okOracle "alert text", okOracle "conversational text",
    fun _ => "weather result", fun _ => "hospital result", fun _ => "trends result"⟩

/-- Valid credentials but context retrieval throws. -/
def envRetrieveFail : WorkflowEnv :=
  ⟨some "user_key123", some "sk-test-key", some "g-key", "2026-01-01T00:00:00.000Z",
    .error (some "memory service down"),
    okOracle "initial analysis", fun _ => okOracle "summary",
    okOracle "prediction text", okOracle "recommendation text",
    okOracle "alert text", okOracle "conversational text",
    fun _ => "weather result", fun _ => "hospital result", fun _ => "trends result"⟩

/-- Valid credentials, context ok, but the real-time analysis call
fails with a non-transient error; everything downstream is healthy. -/
def envAnalyzeFail : WorkflowEnv :=
  ⟨some "user_key123", some "sk-test-key", some "g-key", "2026-01-01T00:00:00.000Z",
    .ok [⟨"context passage"⟩],
    failOracle "internal server error",
    fun _ => okOracle "summary",
    okOracle "prediction text", okOracle "recommendation text",
    okOracle "alert text", okOracle "conversational text",
    fun _ => "weather result", fun _ => "hospital result", fun _ => "trends result"⟩

/-- Valid credentials, steps 1 and 2 succeed, but the gated
generate_predictions call fails with a non-transient error. -/
def envPredictionsFail : WorkflowEnv :=
  ⟨some "user_key123", some "sk-test-key", some "g-key", "2026-01-01T00:00:00.000Z",
    .ok [⟨"context passage"⟩],
    okOracle "initial analysis", fun _ => okOracle "summary",
    failOracle "internal server error",
    okOracle "recommendation text",
    okOracle "alert text", okOracle "conversational text",
    fun _ => "weather result", fun _ => "hospital result", fun _ => "trends result"⟩

/-- Valid credentials, steps 1 and 2 succeed, and the
generate_predictions primary calls are always overloaded while its
fallback call succeeds. -/
def envPredictionsOverloaded : WorkflowEnv :=
  ⟨some "user_key123", some "sk-test-key", some "g-key", "2026-01-01T00:00:00.000Z",
    .ok [⟨"context passage"⟩],
    okOracle "initial analysis", fun _ => okOracle "summary",
    overloadedThenFallbackOk "prediction text",
    okOracle "recommendation text",
    okOracle "alert text", okOracle "conversational text",
    fun _ => "weather result", fun _ => "hospital result", fun _ => "trends result"⟩

/-- No LANGBASE_API_KEY configured; everything else healthy. -/
def envNoKey : WorkflowEnv :=
  ⟨none, some "sk-test-key", some "g-key", "2026-01-01T00:00:00.000Z",
    .ok [⟨"context passage"⟩],
    okOracle "initial analysis", fun _ => okOracle "summary",
    okOracle "prediction text", okOracle "recommendation text",
    okOracle "alert text", okOracle "conversational text",
    fun _ => "weather result", fun _ => "hospital result", fun _ => "trends result"⟩

/-- An HTTP environment with no credential configured. -/
def apiEnvNoKey : ApiEnv := ⟨none, ⟨true, 200, .ok ⟨none, "unused"⟩⟩⟩

/-- An operation that hits a transient overload twice and then
succeeds. -/
def fnRetryScenario : Nat → Except (Option String) Nat
  | 0 => .error (some "The model is overloaded")
  | 1 => .error (some "Rate limit exceeded, please try again later")
  | _ => .ok 42

/-- A call-site oracle whose primary calls always hit a transient
overload and whose fallback call fails as well. -/
def alwaysOverloadedOracle : CallSiteOracle AgentResponse :=
  ⟨fun _ => .error (some "model is overloaded"), .error (some "fallback hit a rate limit too")⟩

/-- The constant message sequence of alwaysOverloadedOracle. -/
def overloadMsgs : Nat → Option String := fun _ => some "model is overloaded"

/-- Upper bound on the total backoff wait still possible when the
default-parameter retry loop stands at a given attempt index. -/
def waitBudget : Nat → Nat
  | 0 => 3500
  | 1 => 3000
  | 2 => 2000
  | _ => 0

/- §6  Helper lemmas -/

theorem withRetriesGo_attempts_le {T : Type} (g : Nat → Except (Option String) T)
    (r d f : Nat) : ∀ (fuel a : Nat), (withRetriesGo g r d f a fuel).attempts ≤ fuel := by
  intro fuel
  induction fuel with
  | zero => intro a; simp [withRetriesGo]
  | succ n ih =>
    intro a
    unfold withRetriesGo
    cases hg : g a with
    | ok v => simp
    | error e =>
      simp only []
      split
      · simp
      · simpa using Nat.succ_le_succ (ih (a + 1))

theorem withRetriesGo_waits_le {T : Type} (g : Nat → Except (Option String) T) :
    ∀ (fuel a : Nat), a + fuel ≤ 4 →
      (withRetriesGo g 3 500 2 a fuel).waits.sum ≤ waitBudget a := by
  intro fuel
  induction fuel with
  | zero => intro a _; simp [withRetriesGo]
  | succ n ih =>
    intro a ha
    unfold withRetriesGo
    cases hg : g a with
    | ok v => simp
    | error e =>
      simp only []
      split
      · simp
      · rename_i hcond
        have hne : ¬ a = 3 := fun h => hcond (Or.inl h)
        have ha2 : a ≤ 2 := by omega
        have hrest := ih (a + 1) (by omega)
        simp only [List.sum_cons]
        interval_cases a <;> simp [waitBudget] at hrest ⊢ <;> omega

theorem runStep6_finalized (env : WorkflowEnv) (meta : List StepResult)
    (exec : List String) (da p rc pa : Option String) :
    (runStep6 env meta exec da p rc pa).workflowEnded = true
  ∧ (runStep6 env meta exec da p rc pa).sessionCreated = true := by
  unfold runStep6
  cases (generateConversationalRun env).result <;> simp

theorem runStep5_finalized (env : WorkflowEnv) (meta : List StepResult)
    (exec : List String) (da p rc : Option String) :
    (runStep5 env meta exec da p rc).workflowEnded = true
  ∧ (runStep5 env meta exec da p rc).sessionCreated = true := by
  unfold runStep5
  split
  · cases (generatePublicAlertsRun env).result <;> simp [runStep6_finalized]
  · exact runStep6_finalized ..

theorem runStep4_finalized (env : WorkflowEnv) (meta : List StepResult)
    (exec : List String) (da p : Option String) :
    (runStep4 env meta exec da p).workflowEnded = true
  ∧ (runStep4 env meta exec da p).sessionCreated = true := by
  unfold runStep4
  split
  · cases (generateRecommendationsRun env).result <;> simp [runStep5_finalized]
  · exact runStep5_finalized ..

theorem runStep3_finalized (env : WorkflowEnv) (meta : List StepResult)
    (exec : List String) (da : Option String) :
    (runStep3 env meta exec da).workflowEnded = true
  ∧ (runStep3 env meta exec da).sessionCreated = true := by
  unfold runStep3
  split
  · cases (generatePredictionsRun env).result <;> simp [runStep4_finalized]
  · exact runStep4_finalized ..

theorem runStep2_finalized (env : WorkflowEnv) (meta : List StepResult)
    (exec : List String) :
    (runStep2 env meta exec).workflowEnded = true
  ∧ (runStep2 env meta exec).sessionCreated = true := by
  unfold runStep2
  cases analyzeRealtimeRun env <;> simp [runStep3_finalized]

theorem runStep6_meta_of_success (env : WorkflowEnv) (meta : List StepResult)
    (exec : List String) (da p rc pa : Option String)
    (E : Envelope StepResult WorkflowData)
    (hE : (runStep6 env meta exec da p rc pa).outcome = Except.ok E)
    (hs : E.success = true) :
    (runStep6 env meta exec da p rc pa).stepMeta =
      meta ++ [⟨"generate_conversational_response", "ok", none, none⟩] := by
  unfold runStep6 at hE ⊢
  cases h : (generateConversationalRun env).result with
  | error e =>
    rw [h] at hE
    simp only [Except.ok.injEq] at hE
    rw [← hE] at hs
    simp [errorEnvelope] at hs
  | ok r => rfl

theorem runStep5_meta_of_success (env : WorkflowEnv) (meta : List StepResult)
    (exec : List String) (da p rc : Option String)
    (E : Envelope StepResult WorkflowData)
    (hE : (runStep5 env meta exec da p rc).outcome = Except.ok E)
    (hs : E.success = true) :
    ∃ e5, (runStep5 env meta exec da p rc).stepMeta =
        meta ++ [e5, ⟨"generate_conversational_response", "ok", none, none⟩]
      ∧ e5.id = "generate_public_alerts" := by
  unfold runStep5 at hE ⊢
  by_cases hg : jsTruthyStr rc = true
  · rw [if_pos hg] at hE ⊢
    cases h : (generatePublicAlertsRun env).result with
    | error e =>
      rw [h] at hE
      simp only [Except.ok.injEq] at hE
      rw [← hE] at hs
      simp [errorEnvelope] at hs
    | ok r =>
      rw [h] at hE
      have h6 := runStep6_meta_of_success env
        (meta ++ [⟨"generate_public_alerts", "ok", none, none⟩])
        (exec ++ ["generate_public_alerts"]) da p rc r.output E hE hs
      exact ⟨⟨"generate_public_alerts", "ok", none, none⟩, h6.trans (by simp), rfl⟩
  · rw [if_neg hg] at hE ⊢
    have h6 := runStep6_meta_of_success env
      (meta ++ [⟨"generate_public_alerts", "skipped", none,
        some ⟨"DEPENDENCY_FAILED", "Skipped due to recommendations error",
          none, none, none, none⟩⟩])
      exec da p rc none E hE hs
    exact ⟨⟨"generate_public_alerts", "skipped", none,
      some ⟨"DEPENDENCY_FAILED", "Skipped due to recommendations error",
        none, none, none, none⟩⟩, h6.trans (by simp), rfl⟩

theorem runStep4_meta_of_success (env : WorkflowEnv) (meta : List StepResult)
    (exec : List String) (da p : Option String)
    (E : Envelope StepResult WorkflowData)
    (hE : (runStep4 env meta exec da p).outcome = Except.ok E)
    (hs : E.success = true) :
    ∃ e4 e5, (runStep4 env meta exec da p).stepMeta =
        meta ++ [e4, e5, ⟨"generate_conversational_response", "ok", none, none⟩]
      ∧ e4.id = "generate_recommendations" ∧ e5.id = "generate_public_alerts" := by
  unfold runStep4 at hE ⊢
  by_cases hg : jsTruthyStr p = true
  · rw [if_pos hg] at hE ⊢
    cases h : (generateRecommendationsRun env).result with
    | error e =>
      rw [h] at hE
      simp only [Except.ok.injEq] at hE
      rw [← hE] at hs
      simp [errorEnvelope] at hs
    | ok r =>
      rw [h] at hE
      obtain ⟨e5, hm, hid⟩ := runStep5_meta_of_success env
        (meta ++ [⟨"generate_recommendations", "ok", none, none⟩])
        (exec ++ ["generate_recommendations"]) da p r.output E hE hs
      exact ⟨⟨"generate_recommendations", "ok", none, none⟩, e5,
        hm.trans (by simp), rfl, hid⟩
  · rw [if_neg hg] at hE ⊢
    obtain ⟨e5, hm, hid⟩ := runStep5_meta_of_success env
      (meta ++ [⟨"generate_recommendations", "skipped", none,
        some ⟨"DEPENDENCY_FAILED", "Skipped due to prediction error",
          none, none, none, none⟩⟩])
      exec da p none E hE hs
    exact ⟨⟨"generate_recommendations", "skipped", none,
      some ⟨"DEPENDENCY_FAILED", "Skipped due to prediction error",
        none, none, none, none⟩⟩, e5, hm.trans (by simp), rfl, hid⟩

theorem runStep3_meta_of_success (env : WorkflowEnv) (meta : List StepResult)
    (exec : List String) (da : Option String)
    (E : Envelope StepResult WorkflowData)
    (hE : (runStep3 env meta exec da).outcome = Except.ok E)
    (hs : E.success = true) :
    ∃ e3 e4 e5, (runStep3 env meta exec da).stepMeta =
        meta ++ [e3, e4, e5, ⟨"generate_conversational_response", "ok", none, none⟩]
      ∧ e3.id = "generate_predictions" ∧ e4.id = "generate_recommendations"
      ∧ e5.id = "generate_public_alerts" := by
  unfold runStep3 at hE ⊢
  by_cases hg : jsTruthyStr da = true
  · rw [if_pos hg] at hE ⊢
    cases h : (generatePredictionsRun env).result with
    | error e =>
      rw [h] at hE
      simp only [Except.ok.injEq] at hE
      rw [← hE] at hs
      simp [errorEnvelope] at hs
    | ok r =>
      rw [h] at hE
      obtain ⟨e4, e5, hm, h4, h5⟩ := runStep4_meta_of_success env
        (meta ++ [⟨"generate_predictions", "ok", none, none⟩])
        (exec ++ ["generate_predictions"]) da r.output E hE hs
      exact ⟨⟨"generate_predictions", "ok", none, none⟩, e4, e5,
        hm.trans (by simp), rfl, h4, h5⟩
  · rw [if_neg hg] at hE ⊢
    obtain ⟨e4, e5, hm, h4, h5⟩ := runStep4_meta_of_success env
      (meta ++ [⟨"generate_predictions", "skipped", none,
        some ⟨"DEPENDENCY_FAILED", "Skipped due to dataAnalysis error",
          none, none, none, none⟩⟩])
      exec da none E hE hs
    exact ⟨⟨"generate_predictions", "skipped", none,
      some ⟨"DEPENDENCY_FAILED", "Skipped due to dataAnalysis error",
        none, none, none, none⟩⟩, e4, e5, hm.trans (by simp), rfl, h4, h5⟩

theorem runStep2_meta_of_success (env : WorkflowEnv) (meta : List StepResult)
    (exec : List String) (E : Envelope StepResult WorkflowData)
    (hE : (runStep2 env meta exec).outcome = Except.ok E)
    (hs : E.success = true) :
    ∃ e2 e3 e4 e5, (runStep2 env meta exec).stepMeta =
        meta ++ [e2, e3, e4, e5, ⟨"generate_conversational_response", "ok", none, none⟩]
      ∧ e2.id = "analyze_realtime_data" ∧ e3.id = "generate_predictions"
      ∧ e4.id = "generate_recommendations" ∧ e5.id = "generate_public_alerts" := by
  unfold runStep2 at hE ⊢
  cases h : analyzeRealtimeRun env with
  | ok da =>
    rw [h] at hE
    obtain ⟨e3, e4, e5, hm, h3, h4, h5⟩ := runStep3_meta_of_success env
      (meta ++ [⟨"analyze_realtime_data", "ok", none, none⟩])
      (exec ++ ["analyze_realtime_data"]) da E hE hs
    exact ⟨⟨"analyze_realtime_data", "ok", none, none⟩, e3, e4, e5,
      hm.trans (by simp), rfl, h3, h4, h5⟩
  | error e =>
    rw [h] at hE
    obtain ⟨e3, e4, e5, hm, h3, h4, h5⟩ := runStep3_meta_of_success env
      (meta ++ [⟨"analyze_realtime_data", "error", none, some (errJson (thrownOfSite e))⟩])
      (exec ++ ["analyze_realtime_data"]) none E hE hs
    exact ⟨⟨"analyze_realtime_data", "error", none, some (errJson (thrownOfSite e))⟩,
      e3, e4, e5, hm.trans (by simp), rfl, h3, h4, h5⟩

/- §7  Claim theorems -/

/-- C3: withRetries with the default options retries exactly on
transient-overload failures while attempts remain, waiting
delayMs * factor^attempt between attempts; a non-matching failure is
re-raised immediately with no wait; an operation failing twice with
overload messages then succeeding yields the success value after
exactly the two waits 500ms and 1000ms; an always-overloaded operation
stops after 4 attempts and waits 500+1000+2000; and in general at most
retries+1 attempts occur with total wait at most 3500ms. -/
theorem withRetries_retry_policy (fn : Nat → Except (Option String) Nat) (v : Nat)
    (e0 e1 : Option String)
    (h0 : fn 0 = Except.error e0) (g0 : isOverloadedError e0 = true)
    (h1 : fn 1 = Except.error e1) (g1 : isOverloadedError e1 = true)
    (h2 : fn 2 = Except.ok v) :
    withRetriesDefault fn = ⟨Except.ok v, [500, 1000], 3⟩
  ∧ (∀ (g : Nat → Except (Option String) Nat) (e : Option String),
      g 0 = Except.error e → isOverloadedError e = false →
      withRetriesDefault g = ⟨Except.error e, [], 1⟩)
  ∧ (∀ (g : Nat → Except (Option String) Nat) (me : Nat → Option String),
      (∀ n, g n = Except.error (me n)) → (∀ n, isOverloadedError (me n) = true) →
      withRetriesDefault g = ⟨Except.error (me 3), [500, 1000, 2000], 4⟩)
  ∧ (∀ (g : Nat → Except (Option String) Nat),
      (withRetriesDefault g).attempts ≤ 3 + 1 ∧ (withRetriesDefault g).waits.sum ≤ 3500) := by
  refine ⟨?_, ?_, ?_, ?_⟩
  · unfold withRetriesDefault withRetries
    simp [withRetriesGo, h0, h1, h2, g0, g1]
  · intro g e hg he
    unfold withRetriesDefault withRetries
    simp [withRetriesGo, hg, he]
  · intro g me hg hov
    unfold withRetriesDefault withRetries
    simp [withRetriesGo, hg 0, hg 1, hg 2, hg 3, hov 0, hov 1, hov 2, hov 3]
  · intro g
    exact ⟨withRetriesGo_attempts_le g 3 500 2 4 0,
      withRetriesGo_waits_le g 4 0 (by omega)⟩

/-- C3 witness: the retry policy evaluated on the concrete
twice-overloaded-then-ok operation. -/
theorem withRetries_retry_policy_witness :
    withRetriesDefault fnRetryScenario = ⟨Except.ok 42, [500, 1000], 3⟩ :=
  (withRetries_retry_policy fnRetryScenario 42 _ _ rfl (by decide) rfl (by decide) rfl).1

/-- C7: a request with a non-empty string input and no configured
LANGBASE_API_KEY gets a success:false envelope with error code
AUTH_ERROR (HTTP 401) from the run entry point, and no network call is
attempted. -/
theorem missing_credential_auth_error (env : ApiEnv) (s : String)
    (hkey : env.langbaseApiKey = none) (hs : s ≠ "") :
    (handleAgentRequest env (.str s)).response.status = 401
  ∧ (handleAgentRequest env (.str s)).response.body.success = false
  ∧ ((handleAgentRequest env (.str s)).response.body.error.map ErrorJSON.code) = some "AUTH_ERROR"
  ∧ (handleAgentRequest env (.str s)).fetchCalls = 0 := by
  simp [handleAgentRequest, hkey, hs, toResponse, errorEnvelope, errJson, AuthError,
    BaseAppError, AppError.toJSON]

/-- C7 witness: the missing-credential scenario at input "test". -/
theorem missing_credential_auth_error_witness :
    (handleAgentRequest apiEnvNoKey (.str "test")).response.status = 401
  ∧ (handleAgentRequest apiEnvNoKey (.str "test")).response.body.success = false
  ∧ ((handleAgentRequest apiEnvNoKey (.str "test")).response.body.error.map ErrorJSON.code)
      = some "AUTH_ERROR"
  ∧ (handleAgentRequest apiEnvNoKey (.str "test")).fetchCalls = 0 :=
  missing_credential_auth_error apiEnvNoKey "test" rfl (by decide)

/-- C8 counterexample: a thrown non-Error value is a failure outside
the typed taxonomy, yet errorEnvelope assigns it the code UNKNOWN, not
UNEXPECTED_ERROR as the claim states. -/
theorem non_error_throw_gets_unknown_code :
    errJson Thrown.otherValue = ⟨"UNKNOWN", "Unknown error", none, none, none, none⟩
  ∧ "UNKNOWN" ≠ "UNEXPECTED_ERROR" :=
  ⟨rfl, by decide⟩

/-- C8 (amended): errorEnvelope always returns a structured
success:false envelope whose error carries a code and message; a
thrown Error outside the typed taxonomy gets code UNEXPECTED_ERROR,
while a thrown non-Error value gets code UNKNOWN; a BaseAppError keeps
its own serialization. -/
theorem errorEnvelope_always_structured (t : Thrown) :
    (@errorEnvelope StepResult WorkflowData t).success = false
  ∧ (@errorEnvelope StepResult WorkflowData t).error = some (errJson t)
  ∧ (∀ m, t = Thrown.jsError m →
      errJson t = ⟨"UNEXPECTED_ERROR", m, none, none, none, none⟩)
  ∧ (t = Thrown.otherValue →
      errJson t = ⟨"UNKNOWN", "Unknown error", none, none, none, none⟩)
  ∧ (∀ e, t = Thrown.appError e → errJson t = e.toJSON) := by
  refine ⟨rfl, rfl, ?_, ?_, ?_⟩
  · intro m hm; subst hm; rfl
  · intro hm; subst hm; rfl
  · intro e hm; subst hm; rfl

/-- C8 witness: the structured-envelope theorem at a thrown plain
Error. -/
theorem errorEnvelope_always_structured_witness :
    (@errorEnvelope StepResult WorkflowData (Thrown.jsError "boom")).success = false
  ∧ errJson (Thrown.jsError "boom") = ⟨"UNEXPECTED_ERROR", "boom", none, none, none, none⟩ :=
  ⟨(errorEnvelope_always_structured (Thrown.jsError "boom")).1,
    (errorEnvelope_always_structured (Thrown.jsError "boom")).2.2.1 "boom" rfl⟩

/-- C10 counterexample: with details.step set to the empty string, the
serialized WorkflowStepError omits the step field (JS `||` treats ""
as falsy), instead of carrying the set value as the claim states. -/
theorem empty_step_detail_omitted :
    (WorkflowStepError "collect_context_data" "boom"
      (some (Details.stepDetails (some "") none)) false).toJSON.step = none
  ∧ (some "" : Option String) ≠ none :=
  ⟨rfl, by decide⟩

/-- C10 (amended): the serialized WorkflowStepError carries a step
field equal to details.step exactly when details.step is set to a
non-empty string (absent when unset, empty, or details is absent); the
error envelope serializes the same way; and the constructor's first
(step) argument never influences the serialized error. -/
theorem workflowStepError_serialization (a b msg : String) (d : Option Details) (r : Bool) :
    (WorkflowStepError a msg d r).toJSON.step = jsTruthyStep d
  ∧ (errJson (Thrown.appError (WorkflowStepError a msg d r))).step = jsTruthyStep d
  ∧ (WorkflowStepError a msg d r).toJSON = (WorkflowStepError b msg d r).toJSON :=
  ⟨rfl, rfl, rfl⟩

/-- C2: when context collection fails (with a configured credential),
run returns success:false with error code WORKFLOW_STEP_ERROR carrying
the step identifier collect_context_data, the stepMeta sequence has
length exactly 1, and no other step's thunk begins execution. -/
theorem context_failure_aborts_workflow (env : WorkflowEnv) (input k : String)
    (e : Option String)
    (hkey : env.langbaseApiKey = some k)
    (hctx : env.retrieveResult = Except.error e) :
    runSuccess (healEyeWorkflow env input) = some false
  ∧ runErrorCode (healEyeWorkflow env input) = some "WORKFLOW_STEP_ERROR"
  ∧ runErrorStep (healEyeWorkflow env input) = some "collect_context_data"
  ∧ (healEyeWorkflow env input).stepMeta.length = 1
  ∧ (healEyeWorkflow env input).executedSteps = ["collect_context_data"] := by
  simp [healEyeWorkflow, hkey, hctx, runSuccess, runErrorCode, runErrorStep,
    errorEnvelope, errJson, WorkflowStepError, AppError.toJSON, jsTruthyStep,
    Details.stepField]

/-- C2 witness: the context-failure scenario on a concrete
environment. -/
theorem context_failure_aborts_workflow_witness :
    runSuccess (healEyeWorkflow envRetrieveFail "hi") = some false
  ∧ runErrorCode (healEyeWorkflow envRetrieveFail "hi") = some "WORKFLOW_STEP_ERROR"
  ∧ runErrorStep (healEyeWorkflow envRetrieveFail "hi") = some "collect_context_data"
  ∧ (healEyeWorkflow envRetrieveFail "hi").stepMeta.length = 1
  ∧ (healEyeWorkflow envRetrieveFail "hi").executedSteps = ["collect_context_data"] :=
  context_failure_aborts_workflow envRetrieveFail "hi" "user_key123"
    (some "memory service down") rfl rfl

/-- C5: when the real-time analysis step fails after a successful
context collection and the conversational call succeeds, stepMeta
records analyze_realtime_data as error, the three gated steps as
skipped with DEPENDENCY_FAILED, and the conversational step as ok, and
the workflow returns a success envelope. -/
theorem realtime_failure_degrades_gracefully (env : WorkflowEnv) (input k : String)
    (ctx : List MemoryChunk) (e : Option String) (r : AgentResponse)
    (hkey : env.langbaseApiKey = some k)
    (hctx : env.retrieveResult = Except.ok ctx)
    (han : analyzeRealtimeRun env = Except.error e)
    (hconv : (generateConversationalRun env).result = Except.ok r) :
    (healEyeWorkflow env input).stepMeta =
      [⟨"collect_context_data", "ok", some ctx.length, none⟩,
       ⟨"analyze_realtime_data", "error", none, some (errJson (thrownOfSite e))⟩,
       ⟨"generate_predictions", "skipped", none,
         some ⟨"DEPENDENCY_FAILED", "Skipped due to dataAnalysis error", none, none, none, none⟩⟩,
       ⟨"generate_recommendations", "skipped", none,
         some ⟨"DEPENDENCY_FAILED", "Skipped due to prediction error", none, none, none, none⟩⟩,
       ⟨"generate_public_alerts", "skipped", none,
         some ⟨"DEPENDENCY_FAILED", "Skipped due to recommendations error", none, none, none, none⟩⟩,
       ⟨"generate_conversational_response", "ok", none, none⟩]
  ∧ runSuccess (healEyeWorkflow env input) = some true := by
  simp [healEyeWorkflow, runStep2, runStep3, runStep4, runStep5, runStep6,
    hkey, hctx, han, hconv, jsTruthyStr, runSuccess, mergeEnvelope, successEnvelope]

/-- C5 witness: the degraded run on a concrete environment where the
analysis call fails with a non-transient error. -/
theorem realtime_failure_degrades_gracefully_witness :
    (healEyeWorkflow envAnalyzeFail "hi").stepMeta =
      [⟨"collect_context_data", "ok", some 1, none⟩,
       ⟨"analyze_realtime_data", "error", none,
         some ⟨"UNEXPECTED_ERROR", "internal server error", none, none, none, none⟩⟩,
       ⟨"generate_predictions", "skipped", none,
         some ⟨"DEPENDENCY_FAILED", "Skipped due to dataAnalysis error", none, none, none, none⟩⟩,
       ⟨"generate_recommendations", "skipped", none,
         some ⟨"DEPENDENCY_FAILED", "Skipped due to prediction error", none, none, none, none⟩⟩,
       ⟨"generate_public_alerts", "skipped", none,
         some ⟨"DEPENDENCY_FAILED", "Skipped due to recommendations error", none, none, none, none⟩⟩,
       ⟨"generate_conversational_response", "ok", none, none⟩]
  ∧ runSuccess (healEyeWorkflow envAnalyzeFail "hi") = some true :=
  realtime_failure_degrades_gracefully envAnalyzeFail "hi" "user_key123"
    [⟨"context passage"⟩] (some "internal server error") (okResp "conversational text")
    rfl rfl rfl rfl

/-- C1 counterexample: with valid credentials and a successful context
collection and analysis, a non-transient failure of the gated
generate_predictions call aborts the whole workflow with a
success:false envelope, and the conversational step never attempts to
run. -/
theorem conversational_skipped_when_gated_step_throws :
    runSuccess (healEyeWorkflow envPredictionsFail "hello") = some false
  ∧ (healEyeWorkflow envPredictionsFail "hello").executedSteps.contains
      "generate_conversational_response" = false :=
  ⟨rfl, rfl⟩

/-- C1 (amended): with valid credentials, when context collection
succeeds, the real-time analysis step fails (so every analysis output
is absent and predictions, recommendations and alerts are all
dependency-skipped) and the conversational call succeeds with non-null
output, run returns a success:true envelope whose data carries that
conversational text and null for every analysis field, and the
conversational step runs on the degraded context; a failure thrown by
a gated analysis step instead aborts the workflow with an error
envelope before the conversational step runs. -/
theorem analysis_failure_still_returns_conversational_success (env : WorkflowEnv)
    (input k s : String) (ctx : List MemoryChunk) (e : Option String) (r : AgentResponse)
    (hkey : env.langbaseApiKey = some k)
    (hctx : env.retrieveResult = Except.ok ctx)
    (han : analyzeRealtimeRun env = Except.error e)
    (hconv : (generateConversationalRun env).result = Except.ok r)
    (hout : r.output = some s) :
    runSuccess (healEyeWorkflow env input) = some true
  ∧ runConvResponse (healEyeWorkflow env input) = some s
  ∧ runData (healEyeWorkflow env input) =
      some ⟨some s, none, none, none, none, env.now, "High", "Active"⟩
  ∧ (healEyeWorkflow env input).executedSteps.contains
      "generate_conversational_response" = true := by
  simp [healEyeWorkflow, runStep2, runStep3, runStep4, runStep5, runStep6,
    hkey, hctx, han, hconv, hout, jsTruthyStr, runSuccess, runConvResponse, runData,
    mergeEnvelope, successEnvelope, List.contains]

/-- C1 witness: the degraded success scenario on a concrete
environment. -/
theorem analysis_failure_still_returns_conversational_success_witness :
    runSuccess (healEyeWorkflow envAnalyzeFail "hello") = some true
  ∧ runConvResponse (healEyeWorkflow envAnalyzeFail "hello") = some "conversational text"
  ∧ runData (healEyeWorkflow envAnalyzeFail "hello") =
      some ⟨some "conversational text", none, none, none, none,
        "2026-01-01T00:00:00.000Z", "High", "Active"⟩
  ∧ (healEyeWorkflow envAnalyzeFail "hello").executedSteps.contains
      "generate_conversational_response" = true :=
  analysis_failure_still_returns_conversational_success envAnalyzeFail "hello"
    "user_key123" "conversational text" [⟨"context passage"⟩]
    (some "internal server error") (okResp "conversational text") rfl rfl rfl rfl rfl

/-- C9 counterexample: with no LANGBASE_API_KEY the invocation exits
via a thrown exception without executing workflow.end — the guard
throws before the provider session is created, so this exit path runs
no finalizer. -/
theorem missing_key_throw_skips_finalize :
    (healEyeWorkflow envNoKey "test").outcome =
      Except.error (some "LANGBASE_API_KEY missing. Set it in .env and restart the process.")
  ∧ (healEyeWorkflow envNoKey "test").workflowEnded = false
  ∧ (healEyeWorkflow envNoKey "test").sessionCreated = false :=
  ⟨rfl, rfl, rfl⟩

/-- C9 (amended): once the provider session is created, every exit
path of the workflow invocation — success envelope or error envelope —
executes workflow.end before completing, so the workflow never
terminates with an unreleased session; the only exit without
finalization is the missing-credential throw, which happens before the
session exists. -/
theorem session_always_finalized (env : WorkflowEnv) (input : String) :
    ((healEyeWorkflow env input).sessionCreated = true →
      (healEyeWorkflow env input).workflowEnded = true)
  ∧ (∀ E, (healEyeWorkflow env input).outcome = Except.ok E →
      (healEyeWorkflow env input).workflowEnded = true)
  ∧ ((healEyeWorkflow env input).sessionCreated = false →
      env.langbaseApiKey = none) := by
  cases hk : env.langbaseApiKey with
  | none => simp [healEyeWorkflow, hk]
  | some k =>
    cases hr : env.retrieveResult with
    | error e => simp [healEyeWorkflow, hk, hr]
    | ok ctx =>
      have h2 := runStep2_finalized env
        [⟨"collect_context_data", "ok", some ctx.length, none⟩] ["collect_context_data"]
      simp [healEyeWorkflow, hk, hr, h2.1, h2.2]

/-- C9 witness: on a healthy concrete environment the session is
created and finalized. -/
theorem session_always_finalized_witness :
    (healEyeWorkflow baseEnv "hi").workflowEnded = true :=
  (session_always_finalized baseEnv "hi").1 rfl

/-- C4 counterexample: at the generate_predictions call site, an
exhausted transient-overload failure of the primary provider triggers
exactly one fallback call which succeeds, yet no system note recording
the fallback is appended — the source pushes such a note only inside
the real-time analysis step. -/
theorem predictions_site_fallback_appends_no_note :
    (generatePredictionsRun envPredictionsOverloaded).result =
      Except.ok (okResp "prediction text")
  ∧ (generatePredictionsRun envPredictionsOverloaded).calls =
      ["openai:gpt-5-mini-2025-08-07", "openai:gpt-5-mini-2025-08-07",
       "openai:gpt-5-mini-2025-08-07", "openai:gpt-5-mini-2025-08-07",
       "google:gemini-2.5-flash"]
  ∧ (generatePredictionsRun envPredictionsOverloaded).noteAppended = false :=
  ⟨by rfl, by rfl, by rfl⟩

/-- C4 (amended): at every reasoning call site, when the primary
provider fails with a transient overload on all four attempts, exactly
one fallback call is issued to the alternate model with no further
retries; if the fallback succeeds a system note is appended only at
call sites whose source pushes one (the two real-time-analysis sites),
and if the fallback also fails its error propagates uncaught with no
second fallback hop and no note. -/
theorem fallback_single_hop {R : Type} (o : CallSiteOracle R) (p f : String) (b : Bool)
    (me : Nat → Option String)
    (h : ∀ n, o.primary n = Except.error (me n))
    (hov : ∀ n, isOverloadedError (me n) = true) :
    (runSiteCalls o p f b).calls = [p, p, p, p, f]
  ∧ (∀ v, o.fallback = Except.ok v → (runSiteCalls o p f b).result = Except.ok v
      ∧ (runSiteCalls o p f b).noteAppended = b)
  ∧ (∀ e2, o.fallback = Except.error e2 →
      (runSiteCalls o p f b).result = Except.error e2
      ∧ (runSiteCalls o p f b).noteAppended = false) := by
  have hw : withRetriesDefault o.primary = ⟨Except.error (me 3), [500, 1000, 2000], 4⟩ := by
    unfold withRetriesDefault withRetries
    simp [withRetriesGo, h 0, h 1, h 2, h 3, hov 0, hov 1, hov 2, hov 3]
  unfold runSiteCalls
  rw [hw]
  refine ⟨?_, ?_, ?_⟩
  · cases hf : o.fallback <;> simp [hf, hov 3, List.replicate]
  · intro v hf; rw [hf]; simp [hov 3]
  · intro e2 hf; rw [hf]; simp [hov 3]

/-- C4 witness: the single-hop fallback behaviour on a concrete
always-overloaded oracle whose fallback also fails. -/
theorem fallback_single_hop_witness :
    (runSiteCalls alwaysOverloadedOracle "openai:gpt-5-mini-2025-08-07"
      "google:gemini-2.5-flash" false).calls =
      ["openai:gpt-5-mini-2025-08-07", "openai:gpt-5-mini-2025-08-07",
       "openai:gpt-5-mini-2025-08-07", "openai:gpt-5-mini-2025-08-07",
       "google:gemini-2.5-flash"]
  ∧ (runSiteCalls alwaysOverloadedOracle "openai:gpt-5-mini-2025-08-07"
      "google:gemini-2.5-flash" false).result =
      Except.error (some "fallback hit a rate limit too")
  ∧ (runSiteCalls alwaysOverloadedOracle "openai:gpt-5-mini-2025-08-07"
      "google:gemini-2.5-flash" false).noteAppended = false :=
  ⟨(fallback_single_hop alwaysOverloadedOracle "openai:gpt-5-mini-2025-08-07"
      "google:gemini-2.5-flash" false overloadMsgs (fun _ => rfl) (fun _ => rfl)).1,
   ((fallback_single_hop alwaysOverloadedOracle "openai:gpt-5-mini-2025-08-07"
      "google:gemini-2.5-flash" false overloadMsgs (fun _ => rfl) (fun _ => rfl)).2.2
      (some "fallback hit a rate limit too") rfl).1,
   ((fallback_single_hop alwaysOverloadedOracle "openai:gpt-5-mini-2025-08-07"
      "google:gemini-2.5-flash" false overloadMsgs (fun _ => rfl) (fun _ => rfl)).2.2
      (some "fallback hit a rate limit too") rfl).2⟩

/-- C6 counterexample: a workflow invocation whose context collection
fails records a StepResult sequence of length 1, not 6. -/
theorem stepMeta_length_one_on_context_failure :
    (healEyeWorkflow envRetrieveFail "hello").stepMeta.length = 1
  ∧ (1 : Nat) ≠ 6 :=
  ⟨rfl, by decide⟩

/-- C6 (amended): whenever a workflow invocation returns a success
envelope, its StepResult sequence lists exactly the six defined
pipeline steps in execution order (length 6) even when later steps are
skipped; a fatal failure instead truncates the sequence at the failing
step. -/
theorem success_envelope_records_six_steps (env : WorkflowEnv) (input : String)
    (E : Envelope StepResult WorkflowData)
    (hE : (healEyeWorkflow env input).outcome = Except.ok E)
    (hs : E.success = true) :
    (healEyeWorkflow env input).stepMeta.map StepResult.id =
      ["collect_context_data", "analyze_realtime_data", "generate_predictions",
       "generate_recommendations", "generate_public_alerts",
       "generate_conversational_response"]
  ∧ (healEyeWorkflow env input).stepMeta.length = 6 := by
  cases hk : env.langbaseApiKey with
  | none =>
    have hw : (healEyeWorkflow env input).outcome = Except.error
        (some "LANGBASE_API_KEY missing. Set it in .env and restart the process.") := by
      simp [healEyeWorkflow, hk]
    rw [hw] at hE
    exact absurd hE (by simp)
  | some k =>
    cases hr : env.retrieveResult with
    | error e =>
      have hw : (healEyeWorkflow env input).outcome = Except.ok
          (errorEnvelope (Thrown.appError (WorkflowStepError "collect_context_data"
            "Failed to retrieve context data"
            (some (Details.stepDetails (some "collect_context_data") e)) false))) := by
        simp [healEyeWorkflow, hk, hr]
      rw [hw] at hE
      simp only [Except.ok.injEq] at hE
      rw [← hE] at hs
      simp [errorEnvelope] at hs
    | ok ctx =>
      have hw : healEyeWorkflow env input = runStep2 env
          [⟨"collect_context_data", "ok", some ctx.length, none⟩]
          ["collect_context_data"] := by
        simp [healEyeWorkflow, hk, hr]
      rw [hw] at hE ⊢
      obtain ⟨e2, e3, e4, e5, hm, h2, h3, h4, h5⟩ := runStep2_meta_of_success env
        [⟨"collect_context_data", "ok", some ctx.length, none⟩]
        ["collect_context_data"] E hE hs
      rw [hm]
      simp [h2, h3, h4, h5]

/-- C6 witness: the six-step sequence on a fully healthy concrete
environment. -/
theorem success_envelope_records_six_steps_witness :
    (healEyeWorkflow baseEnv "hi").stepMeta.map StepResult.id =
      ["collect_context_data", "analyze_realtime_data", "generate_predictions",
       "generate_recommendations", "generate_public_alerts",
       "generate_conversational_response"]
  ∧ (healEyeWorkflow baseEnv "hi").stepMeta.length = 6 :=
  success_envelope_records_six_steps baseEnv "hi" _ rfl rfl

end HealEye
